import Mathlib

/-!
A verification development for the `sklearn2pmml` package (file
`sklearn2pmml/__init__.py`).  The Python source is shallowly embedded:

* The composite pipeline object graph handled by `_filter` / `_filter_steps`
  is modelled by the mutual inductive family `Obj` / `Steps` / `OptSteps` /
  `ObjList`.  Step tuples `(name, component, *extra)` keep their name and
  extra payload; only the component at index 1 is rewritten, exactly as in
  `_filter_steps`.
* `_filter` below is the value-level semantics of the Python `_filter`
  (which result each call returns).  Object identity and in-place field
  assignment, which the value-level model cannot express, are modelled
  separately by an explicit store (`Cell` / `Store` / `filterRef`).
* The conversion orchestrator `sklearn2pmml` is modelled as a function from
  an environment describing the outcome of the external effects (debug flag,
  presence of a downloadable MOJO artifact, Java launch success, exit code)
  to the outcome plus a trace of the transient dump files created, still
  existing, and reported as preserved.
* Manifest parsing (`_parse_properties`), the capability resolver
  (`_supported_classes`, `_strip_module`, `make_tpot_pmml_config`) and the
  `SelectorProxy` constructor are modelled directly; string splitting is
  done character-by-character so that everything computes.
-/

namespace Sklearn2Pmml

deriving instance DecidableEq for Except

/-! The composite component variant set of `_filter`:
`DataFrameMapper` (`features` plus optional `built_features`),
`ColumnTransformer` (`transformers`, `remainder`, optional fitted
`transformers_`), `FeatureUnion` (`transformer_list`), `Pipeline` (`steps`),
`PMMLPipeline` (a `Pipeline` subclass, `steps`), `SelectorMixin` instances
(carrying their support mask when fit, `none` when unfit), `SelectorProxy`,
plain estimators, plain Python lists, and plain strings (the
`"passthrough"` / `"drop"` remainder sentinels). -/

mutual

inductive Obj : Type where
  | dfm (features : Steps) (builtFeatures : OptSteps)
  | colt (transformers : Steps) (remainder : Obj) (fittedTransformers : OptSteps)
  | union (transformerList : Steps)
  | pipe (steps : Steps)
  | pmmlPipe (steps : Steps)
  | sel (mask : Option (List Bool))
  | proxy (selector : Obj) (supportMask : Option (List Bool))
  | est (tag : String)
  | lst (elems : ObjList)
  | strLit (s : String)

inductive Steps : Type where
  | nil
  | cons (name : String) (component : Obj) (extra : List String) (rest : Steps)

inductive OptSteps : Type where
  | none
  | some (s : Steps)

inductive ObjList : Type where
  | nil
  | cons (head : Obj) (tail : ObjList)

end

open Obj

/-! Value-level semantics of the Python `_filter` (and its helpers): which
component each call returns.  `DataFrameMapper`, `ColumnTransformer`,
`FeatureUnion` and `Pipeline` have their step lists rewritten and are
returned; a `SelectorMixin` is replaced by a `SelectorProxy` wrapping it
(the proxy construction stores the selector's support mask when the selector
is fit, nothing otherwise — see `selectorProxyNew`); a list is rewritten
elementwise; every other object (proxies, plain estimators, the
`remainder` sentinels) is returned unchanged. -/

mutual

def _filter : Obj → Obj
  | dfm fs b => dfm (_filter_steps fs) (filterOptSteps b)
  | colt ts r f => colt (_filter_steps ts) (_filter r) (filterOptSteps f)
  | union ts => union (_filter_steps ts)
  | pipe ss => pipe (_filter_steps ss)
  | pmmlPipe ss => pmmlPipe (_filter_steps ss)
  | sel m => proxy (sel m) m
  | proxy s m => proxy s m
  | est t => est t
  | lst es => lst (filterList es)
  | strLit s => strLit s

def _filter_steps : Steps → Steps
  | .nil => .nil
  | .cons n c ex rest => .cons n (_filter c) ex (_filter_steps rest)

def filterOptSteps : OptSteps → OptSteps
  | .none => .none
  | .some s => .some (_filter_steps s)

def filterList : ObjList → ObjList
  | .nil => .nil
  | .cons h t => .cons (_filter h) (filterList t)

end

/-- The exceptions raised by an unfit selector when its support mask is
requested: `NotFittedError` (caught in `SelectorProxy.__init__`) or
`ValueError` (caught in `SelectorProxy._copy_attrs`). -/
inductive SkError : Type where
  | notFittedError
  | valueError
deriving DecidableEq

/-- Model of `selector._get_support_mask()`: returns the support mask of a fit
selector and raises (`NotFittedError` or `ValueError`, depending on the
selector implementation) for an unfit one. -/
def _get_support_mask (mask : Option (List Bool)) (err : SkError) :
    Except SkError (List Bool) :=
  match mask with
  | Option.some m => Except.ok m
  | Option.none => Except.error err

/-- Model of `SelectorProxy.__init__(selector)`: tries `_copy_attrs`, which stores
`selector._get_support_mask()` into `support_mask_` and catches
`ValueError`; `__init__` itself catches `NotFittedError`.  Either way the
constructor returns a proxy (never propagates those exceptions); the stored
mask is `none` when the selector was unfit. -/
def selectorProxyNew (mask : Option (List Bool)) (err : SkError) :
    Except SkError Obj :=
  match _get_support_mask mask err with
  | Except.ok m => Except.ok (Obj.proxy (Obj.sel mask) (Option.some m))
  | Except.error SkError.valueError => Except.ok (Obj.proxy (Obj.sel mask) Option.none)
  | Except.error SkError.notFittedError => Except.ok (Obj.proxy (Obj.sel mask) Option.none)

/-- Model of `isinstance(obj, Pipeline)` over the variant set (`PMMLPipeline` is a
`Pipeline` subclass). -/
def isPipelineInst : Obj → Bool
  | pipe _ => true
  | pmmlPipe _ => true
  | _ => false

/-- Model of `isinstance(obj, BaseEstimator)` over the variant set: every modelled
component is a scikit-learn estimator except plain lists and plain
strings. -/
def isBaseEstimator : Obj → Bool
  | lst _ => false
  | strLit _ => false
  | _ => true

/-- The `ValueError` raised by `_get_steps` for an object that is neither a
`Pipeline` nor a `BaseEstimator` (the spec's InvalidInputError). -/
inductive InvalidInputError : Type where
  | invalidInput
deriving DecidableEq

/-- Model of `_get_steps(obj)`: a `Pipeline` contributes its own `steps`; any other
`BaseEstimator` is wrapped as the single step `("estimator", obj)`;
anything else raises `ValueError`. -/
def _get_steps : Obj → Except InvalidInputError Steps
  | pipe ss => Except.ok ss
  | pmmlPipe ss => Except.ok ss
  | obj =>
    if isBaseEstimator obj then Except.ok (Steps.cons "estimator" obj [] Steps.nil)
    else Except.error InvalidInputError.invalidInput

/-- Model of `make_pmml_pipeline(obj)`: builds `PMMLPipeline(_filter_steps(_get_steps(obj)))`.
The optional `active_fields` / `target_fields` metadata attributes are not
modelled (no claim concerns them). -/
def make_pmml_pipeline (obj : Obj) : Except InvalidInputError Obj :=
  match _get_steps obj with
  | Except.error e => Except.error e
  | Except.ok ss => Except.ok (Obj.pmmlPipe (_filter_steps ss))

/-- Model of `isinstance(pipeline, PMMLPipeline)`: the canonical type-tag check of
`sklearn2pmml` (a plain `Pipeline` does not pass). -/
def isPMMLPipeline : Obj → Bool
  | pmmlPipe _ => true
  | _ => false

/-! ## Conversion orchestrator -/

/-- Environment of one `sklearn2pmml` call: the keyword flags and the
outcomes of the external effects (whether the final estimator offers
`download_mojo`, whether `Popen` on the java command succeeds, and the exit
status of the converter process). -/
structure ConvEnv : Type where
  debug : Bool
  with_repr : Bool
  hasMojo : Bool
  launchOk : Bool
  retcode : Nat
deriving DecidableEq

/-- The outcome of a `sklearn2pmml` call: normal return, the `TypeError`
for a non-`PMMLPipeline` argument, the `RuntimeError` for an unlaunchable
java executable, or the `RuntimeError` for a non-zero exit status. -/
inductive ConvOutcome : Type where
  | success
  | typeMismatch (msg : String)
  | runtimeUnavailable (msg : String)
  | conversionFailed (msg : String)
deriving DecidableEq

/-- Trace of one `sklearn2pmml` call: the transient dump files created
during the call, the ones still existing when the call returns or raises,
the ones whose paths were reported as preserved, and whether the converter
process was launched. -/
structure ConvTrace : Type where
  created : List String
  existing : List String
  preservedReport : List String
  launched : Bool
deriving DecidableEq

/-- Path of the MOJO artifact materialized by `estimator.download_mojo()`. -/
def mojoDumpPath : String := "estimator.mojo"

/-- Path of the serialized-pipeline file produced by `_dump(pipeline, "pipeline")`
(a `tempfile.mkstemp` name with prefix `pipeline-` and suffix `.pkl.z`). -/
def pipelineDumpPath : String := "pipeline-XXXXXX.pkl.z"

/-- The `TypeError` message of `sklearn2pmml` for a non-`PMMLPipeline`
argument. -/
def typeMismatchMsg : String :=
  "The pipeline object is not an instance of PMMLPipeline. Use the \x27sklearn2pmml.make_pmml_pipeline(obj)\x27 utility function to translate a regular Scikit-Learn estimator or pipeline to a PMML pipeline"

/-- The `RuntimeError` message raised when `Popen` fails with `OSError`. -/
def javaUnavailableMsg : String :=
  "Java is not installed, or the Java executable is not on system path"

/-- The `RuntimeError` message raised for a non-zero converter exit status. -/
def conversionFailedMsg : String :=
  "The JPMML-SkLearn conversion application has failed. The Java executable should have printed more information about the failure into its standard output and/or standard error streams"

/-- The `sklearn2pmml` conversion orchestrator.  The type-tag check runs
before any dump file is created or any converter process is launched; then
the MOJO artifact (when the final estimator offers `download_mojo`) and the
serialized pipeline are dumped to transient files, both recorded in
`dumps`; the converter process is launched (`OSError` becomes the
runtime-unavailable `RuntimeError`, a non-zero exit status the
conversion-failed `RuntimeError`); and the `finally` block either reports
every dump path as preserved (`debug`) or removes every dump file. -/
def sklearn2pmml (env : ConvEnv) (pipeline : Obj) : ConvOutcome × ConvTrace :=
  if isPMMLPipeline pipeline = false then
    (ConvOutcome.typeMismatch typeMismatchMsg,
     { created := [], existing := [], preservedReport := [], launched := false })
  else
    let dumps := (if env.hasMojo then [mojoDumpPath] else []) ++ [pipelineDumpPath]
    let outcome :=
      if env.launchOk = false then ConvOutcome.runtimeUnavailable javaUnavailableMsg
      else if env.retcode = 0 then ConvOutcome.success
      else ConvOutcome.conversionFailed conversionFailedMsg
    if env.debug then
      (outcome, { created := dumps, existing := dumps, preservedReport := dumps,
                  launched := env.launchOk })
    else
      (outcome, { created := dumps, existing := [], preservedReport := [],
                  launched := env.launchOk })

/-! ## Manifest parsing and the capability resolver -/

/-- Python `str.rstrip()` on a character list. -/
def rstripL (cs : List Char) : List Char :=
  ((cs.reverse).dropWhile Char.isWhitespace).reverse

/-- Python `str.lstrip()` on a character list. -/
def lstripL (cs : List Char) : List Char :=
  cs.dropWhile Char.isWhitespace

/-- Split a character list at every occurrence of `sep` (Python
`str.split(sep)` with a one-character separator; also the chunk structure
underlying `re.split` on a separator-centred pattern). -/
def splitOnChar (sep : Char) : List Char → List (List Char)
  | [] => [[]]
  | c :: cs =>
    if c = sep then [] :: splitOnChar sep cs
    else
      match splitOnChar sep cs with
      | [] => [[c]]
      | p :: ps => (c :: p) :: ps

/-- Python `sep.join` for a one-character separator. -/
def joinChar (sep : Char) : List (List Char) → List Char
  | [] => []
  | [p] => p
  | p :: ps => p ++ sep :: joinChar sep ps

/-- The `ValueError` raised when unpacking `splitter.split(line)` of a
manifest line that does not have exactly one `key = value` separator (the
spec's ManifestParseError). -/
inductive ManifestParseError : Type where
  | malformedLine
deriving DecidableEq

/-- Python dict assignment `properties[key] = value`: replace the value at
an existing key in place, otherwise append the binding. -/
def insertProp : List (String × String) → String → String → List (String × String)
  | [], k, v => [(k, v)]
  | (k0, v0) :: rest, k, v =>
    if k0 = k then (k, v) :: rest else (k0, v0) :: insertProp rest k v

/-- One iteration of the `_parse_properties` loop: `line.rstrip()`; skip the
line when it starts with `#`; otherwise split it at `re.compile("\\s*=\\s*")`.
Splitting at that regex is splitting at each `=` with the whitespace
adjacent to the `=` absorbed — for a line with exactly one `=` the key is
the part before it with its trailing whitespace removed and the value the
part after it with its leading whitespace removed; a line with no `=` (or
more than one) makes the two-element unpacking raise `ValueError`. -/
inductive PropLine : Type where
  | comment
  | record (key value : String)
  | malformed

/-- Classify one manifest line (see `PropLine`). -/
def _parse_propline (line : String) : PropLine :=
  let l := rstripL line.data
  if l.head? = Option.some '#' then PropLine.comment
  else
    match splitOnChar '=' l with
    | [k, v] => PropLine.record (String.mk (rstripL k)) (String.mk (lstripL v))
    | _ => PropLine.malformed

/-- The `_parse_properties` loop with its `properties` accumulator. -/
def parsePropertiesGo (props : List (String × String)) :
    List String → Except ManifestParseError (List (String × String))
  | [] => Except.ok props
  | line :: rest =>
    match _parse_propline line with
    | PropLine.comment => parsePropertiesGo props rest
    | PropLine.record k v => parsePropertiesGo (insertProp props k v) rest
    | PropLine.malformed => Except.error ManifestParseError.malformedLine

/-- Model of `_parse_properties(lines)`: the properties dict built from the decoded
manifest lines. -/
def _parse_properties (lines : List String) :
    Except ManifestParseError (List (String × String)) :=
  parsePropertiesGo [] lines

/-- One classpath jar, abstracted to the content of its
`META-INF/sklearn2pmml.properties` entry: `none` when the entry is absent
(the `KeyError` is caught and the jar skipped), otherwise the entry's
decoded lines. -/
abbrev JarEntry := Option (List String)

/-- Model of `_supported_classes(user_classpath)` over the jars of the assembled
classpath: for every jar whose properties entry is present, parse it and
collect the keys, in classpath order; a parse failure propagates. -/
def _supported_classes : List JarEntry → Except ManifestParseError (List String)
  | [] => Except.ok []
  | Option.none :: rest => _supported_classes rest
  | Option.some lines :: rest =>
    match _parse_properties lines with
    | Except.error e => Except.error e
    | Except.ok props =>
      match _supported_classes rest with
      | Except.error e => Except.error e
      | Except.ok more => Except.ok (props.map Prod.fst ++ more)

/-- Model of `_strip_module(name)`: split at `.`; when there are at least two parts,
remove the second-to-last part (`parts.pop(-2)`) and rejoin; otherwise
return the name unchanged. -/
def _strip_module (name : String) : String :=
  let parts := splitOnChar '.' name.data
  if parts.length > 1 then
    String.mk (joinChar '.' (parts.eraseIdx (parts.length - 2)))
  else name

/-- Model of `make_tpot_pmml_config(config, user_classpath)`: keep exactly the
config entries whose key is a supported class name, verbatim or as the
`_strip_module` image of a supported class name (`pmml_keys` is the union
of the supported classes and their stripped forms, and the result keeps the
keys in `tpot_keys ∩ pmml_keys`). -/
def make_tpot_pmml_config {α : Type} (config : List (String × α))
    (jars : List JarEntry) : Except ManifestParseError (List (String × α)) :=
  match _supported_classes jars with
  | Except.error e => Except.error e
  | Except.ok classes =>
    let pmml_keys := classes ++ classes.map _strip_module
    Except.ok (config.filter (fun kv => pmml_keys.contains kv.1))

/-! ## Store model of `_filter` (object identity and in-place update)

The value-level `_filter` above cannot talk about object identity.  The
fragment below models the heap explicitly: a `Store` is a list of object
cells addressed by position, a pipeline cell holds the addresses of its
step components, and `filterRef` is the Python `_filter` on addresses — a
pipeline's `steps` field is assigned in place (`List.set` at the
pipeline's own address) and the pipeline's own address is returned, while
a selector allocates a fresh proxy cell and returns the fresh address. -/

/-- A heap cell: a `Pipeline` (steps hold component addresses), a
`SelectorMixin` instance, a `SelectorProxy`, or a plain estimator. -/
inductive Cell : Type where
  | cpipe (steps : List (String × Nat))
  | csel (mask : Option (List Bool))
  | cproxy (selectorRef : Nat) (supportMask : Option (List Bool))
  | cest (tag : String)
deriving DecidableEq

/-- The heap: cells addressed by list position; allocation appends. -/
abbrev Store := List Cell

/-- Work item of the store-level rewrite: one object address (`_filter`) or
a step list (`_filter_steps`). -/
inductive FTask : Type where
  | one (a : Nat)
  | many (steps : List (String × Nat))

/-- Result of a store-level work item. -/
inductive FRes : Type where
  | one (a : Nat)
  | many (steps : List (String × Nat))
deriving DecidableEq

/-- Fuel-indexed interpreter for the store-level `_filter` /
`_filter_steps` pair (fuel only bounds the recursion depth; every
constructor case mirrors the Python branch).  A pipeline rewrites its step
components, assigns the rewritten list into its own `steps` field and
returns its own address; a selector allocates a fresh proxy cell wrapping
it (without modifying the selector cell) and returns the fresh address;
proxies and plain estimators are returned unchanged. -/
def filterGo : Nat → FTask → Store → Option (FRes × Store)
  | 0, _, _ => Option.none
  | fuel + 1, FTask.one a, s =>
    match s.get? a with
    | Option.some (Cell.cpipe steps) =>
      match filterGo fuel (FTask.many steps) s with
      | Option.some (FRes.many steps2, s2) =>
        Option.some (FRes.one a, s2.set a (Cell.cpipe steps2))
      | _ => Option.none
    | Option.some (Cell.csel m) =>
      Option.some (FRes.one s.length, s ++ [Cell.cproxy a m])
    | Option.some (Cell.cproxy _ _) => Option.some (FRes.one a, s)
    | Option.some (Cell.cest _) => Option.some (FRes.one a, s)
    | Option.none => Option.none
  | _ + 1, FTask.many [], s => Option.some (FRes.many [], s)
  | fuel + 1, FTask.many ((n, r) :: rest), s =>
    match filterGo fuel (FTask.one r) s with
    | Option.some (FRes.one r2, s2) =>
      match filterGo fuel (FTask.many rest) s2 with
      | Option.some (FRes.many rest2, s3) =>
        Option.some (FRes.many ((n, r2) :: rest2), s3)
      | _ => Option.none
    | _ => Option.none

/-- Model of `_filter(a)` on the store: run `filterGo` on one address. -/
def filterRef (fuel a : Nat) (s : Store) : Option (Nat × Store) :=
  match filterGo fuel (FTask.one a) s with
  | Option.some (FRes.one r, s2) => Option.some (r, s2)
  | _ => Option.none

/-- Store used to exhibit the in-place update of `_filter`: a pipeline at
address 0 whose single step references the fit selector at address 1. -/
def demoStore : Store :=
  [Cell.cpipe [("selector", 1)], Cell.csel (Option.some [true, false])]

/-! ## Helper lemmas -/

mutual

theorem filterIdemObj : ∀ x : Obj, _filter (_filter x) = _filter x
  | dfm fs b => by simp [_filter, filterIdemSteps fs, filterIdemOptSteps b]
  | colt ts r f => by
    simp [_filter, filterIdemSteps ts, filterIdemObj r, filterIdemOptSteps f]
  | union ts => by simp [_filter, filterIdemSteps ts]
  | pipe ss => by simp [_filter, filterIdemSteps ss]
  | pmmlPipe ss => by simp [_filter, filterIdemSteps ss]
  | sel m => by simp [_filter]
  | proxy s m => by simp [_filter]
  | est t => by simp [_filter]
  | lst es => by simp [_filter, filterIdemList es]
  | strLit s => by simp [_filter]

theorem filterIdemSteps : ∀ s : Steps, _filter_steps (_filter_steps s) = _filter_steps s
  | .nil => by simp [_filter_steps]
  | .cons n c ex rest => by simp [_filter_steps, filterIdemObj c, filterIdemSteps rest]

theorem filterIdemOptSteps : ∀ o : OptSteps, filterOptSteps (filterOptSteps o) = filterOptSteps o
  | .none => by simp [filterOptSteps]
  | .some s => by simp [filterOptSteps, filterIdemSteps s]

theorem filterIdemList : ∀ l : ObjList, filterList (filterList l) = filterList l
  | .nil => by simp [filterList]
  | .cons h t => by simp [filterList, filterIdemObj h, filterIdemList t]

end

theorem splitOnChar_of_not_mem (sep : Char) :
    ∀ cs : List Char, sep ∉ cs → splitOnChar sep cs = [cs]
  | [], _ => rfl
  | c :: cs, h => by
    have hc : ¬ c = sep := fun hcs => h (hcs ▸ List.mem_cons_self c cs)
    have ih := splitOnChar_of_not_mem sep cs (fun hm => h (List.mem_cons_of_mem c hm))
    simp [splitOnChar, hc, ih]

theorem mem_of_mem_rstripL {c : Char} {cs : List Char} (h : c ∈ rstripL cs) : c ∈ cs := by
  unfold rstripL at h
  rw [List.mem_reverse] at h
  have := (List.dropWhile_sublist (l := cs.reverse) (p := Char.isWhitespace)).mem h
  rwa [List.mem_reverse] at this

/-! ## Claim theorems -/

/-- C1: with diagnostics disabled, every transient dump file created during
a `sklearn2pmml` call (the serialized-pipeline file and any extracted MOJO
artifact) is gone when the call returns or raises, on every outcome
(success, non-zero exit status, launch failure — all covered by the
quantification over `ConvEnv`); with diagnostics enabled, exactly the
created paths are reported as preserved and all of them still exist.  The
last conjunct shows the property is not vacuous: for a canonical pipeline
the serialized-pipeline dump file really is created. -/
theorem sklearn2pmml_cleanup (env : ConvEnv) (p : Obj) :
    ((sklearn2pmml env p).2.existing =
      (if env.debug then (sklearn2pmml env p).2.created else [])) ∧
    ((sklearn2pmml env p).2.preservedReport =
      (if env.debug then (sklearn2pmml env p).2.created else [])) ∧
    (isPMMLPipeline p = true → pipelineDumpPath ∈ (sklearn2pmml env p).2.created) := by
  unfold sklearn2pmml
  cases hp : isPMMLPipeline p with
  | false => simp
  | true => cases hd : env.debug <;> simp [hd]

/-- Witness for `sklearn2pmml_cleanup` at a concrete environment and
pipeline. -/
theorem sklearn2pmml_cleanup_witness :
    pipelineDumpPath ∈
      (sklearn2pmml ⟨false, false, true, true, 0⟩ (Obj.pmmlPipe Steps.nil)).2.created :=
  (sklearn2pmml_cleanup ⟨false, false, true, true, 0⟩ (Obj.pmmlPipe Steps.nil)).2.2 rfl

/-- C2 (counterexample): the claim predicts that with supported identifiers
`{"pkg.Foo"}` and search-space key `"pkg.sub.Foo"` the entry is included,
because stripping one trailing structural segment from the *key* gives
`"pkg.Foo"`, a member of the supported set.  The code instead strips the
*supported identifiers* (`pmml_keys = classes ∪ strip(classes)`), so the
entry is dropped: the manifest line `"pkg.Foo = cls"` yields the supported
set `{"pkg.Foo"}`, the stripped form of the key is `"pkg.Foo"`, and yet the
resulting configuration is empty. -/
theorem make_tpot_pmml_config_counterexample :
    _supported_classes [Option.some ["pkg.Foo = cls"]] = Except.ok ["pkg.Foo"] ∧
    _strip_module "pkg.sub.Foo" = "pkg.Foo" ∧
    make_tpot_pmml_config [("pkg.sub.Foo", (1 : Nat))] [Option.some ["pkg.Foo = cls"]] =
      Except.ok [] := by decide

/-- C2 (amended): `make_tpot_pmml_config` includes an entry exactly when
its key is in the supported-identifiers set, either verbatim or as the
`_strip_module` image of a supported identifier (one structural segment is
stripped from the supported identifiers, not from the search-space key). -/
theorem make_tpot_pmml_config_amended {α : Type} (config : List (String × α))
    (jars : List JarEntry) (classes : List String) (k : String) (v : α)
    (h : _supported_classes jars = Except.ok classes) :
    ∃ res, make_tpot_pmml_config config jars = Except.ok res ∧
      ((k, v) ∈ res ↔
        (k, v) ∈ config ∧ (k ∈ classes ∨ k ∈ classes.map _strip_module)) := by
  refine ⟨config.filter (fun kv => (classes ++ classes.map _strip_module).contains kv.1), ?_, ?_⟩
  · simp [make_tpot_pmml_config, h]
  · simp [List.mem_filter, List.contains, List.mem_append]

/-- Witness for `make_tpot_pmml_config_amended`: the stripped form of the
supported identifier `"pkg.sub.Foo"` is `"pkg.Foo"`, so the entry keyed
`"pkg.Foo"` is included. -/
theorem make_tpot_pmml_config_amended_witness :
    ∃ res, make_tpot_pmml_config [("pkg.Foo", (1 : Nat))]
        [Option.some ["pkg.sub.Foo = cls"]] = Except.ok res ∧
      (("pkg.Foo", (1 : Nat)) ∈ res ↔
        ("pkg.Foo", (1 : Nat)) ∈ [("pkg.Foo", (1 : Nat))] ∧
        ("pkg.Foo" ∈ ["pkg.sub.Foo"] ∨ "pkg.Foo" ∈ ["pkg.sub.Foo"].map _strip_module)) :=
  make_tpot_pmml_config_amended [("pkg.Foo", (1 : Nat))]
    [Option.some ["pkg.sub.Foo = cls"]] ["pkg.sub.Foo"] "pkg.Foo" 1 (by decide)

/-- C3 (counterexample): `_filter` is not pure — it rewrites a composite
input in place.  On the store holding a pipeline (address 0) whose single
step references a fit selector (address 1), running the store-level
`_filter` on the pipeline returns the pipeline's own address, and the cell
at that address has changed: its `steps` field now references the freshly
allocated `SelectorProxy` (address 2) instead of the selector, so the
caller's original component graph is mutated. -/
theorem filter_purity_counterexample :
    filterRef 3 0 demoStore =
      Option.some (0,
        [Cell.cpipe [("selector", 2)], Cell.csel (Option.some [true, false]),
         Cell.cproxy 1 (Option.some [true, false])]) ∧
    ¬ ([Cell.cpipe [("selector", 2)], Cell.csel (Option.some [true, false]),
        Cell.cproxy 1 (Option.some [true, false])].get? 0 = demoStore.get? 0) := by
  decide

/-- C3 (amended): `_filter` returns the rewritten result, but not as a pure
copy: a composite (pipeline) input is rewritten by assigning into its own
fields, so the address returned is the input's own address and the caller's
original graph is updated in place; only a Selector input yields a fresh
object — a newly allocated proxy — while the selector cell itself is left
unchanged (the store is only extended). -/
theorem filterRef_in_place (fuel a : Nat) (s : Store) :
    (∀ steps r s2, s.get? a = Option.some (Cell.cpipe steps) →
       filterRef fuel a s = Option.some (r, s2) → r = a) ∧
    (∀ m r s2, s.get? a = Option.some (Cell.csel m) →
       filterRef fuel a s = Option.some (r, s2) →
       r = s.length ∧ s2 = s ++ [Cell.cproxy a m]) := by
  constructor
  · intro steps r s2 hget hrun
    cases fuel with
    | zero => simp [filterRef, filterGo] at hrun
    | succ n =>
      rw [filterRef, filterGo, hget] at hrun
      simp only [] at hrun
      rcases h2 : filterGo n (FTask.many steps) s with _ | ⟨res, s3⟩
      · rw [h2] at hrun; simp at hrun
      · rw [h2] at hrun
        cases res with
        | one b => simp at hrun
        | many steps2 => simp at hrun; exact hrun.1.symm
  · intro m r s2 hget hrun
    cases fuel with
    | zero => simp [filterRef, filterGo] at hrun
    | succ n =>
      rw [filterRef, filterGo, hget] at hrun
      simp at hrun
      exact ⟨hrun.1.symm, hrun.2.symm⟩

/-- Witness for `filterRef_in_place` on `demoStore`: the pipeline case
returns address 0 (its own address) and the selector case returns the
fresh address 2 with the store extended by the proxy cell. -/
theorem filterRef_in_place_witness :
    (0 : Nat) = 0 ∧
    ((2 : Nat) = demoStore.length ∧
      demoStore ++ [Cell.cproxy 1 (Option.some [true, false])] =
        demoStore ++ [Cell.cproxy 1 (Option.some [true, false])]) :=
  ⟨(filterRef_in_place 3 0 demoStore).1 [("selector", 1)] 0
      [Cell.cpipe [("selector", 2)], Cell.csel (Option.some [true, false]),
       Cell.cproxy 1 (Option.some [true, false])] (by decide) (by decide),
   (filterRef_in_place 3 1 demoStore).2 (Option.some [true, false]) 2
      (demoStore ++ [Cell.cproxy 1 (Option.some [true, false])]) (by decide) (by decide)⟩

/-- C4: `make_pmml_pipeline` wraps a bare leaf estimator as a one-step
pipeline whose sole step is named `"estimator"`; for a `Pipeline` input it
uses that pipeline's steps (normalized by `_filter_steps`); for an object
that is neither a `Pipeline` nor an estimator it fails with the
`ValueError` of `_get_steps` (the spec's InvalidInputError); and every
successful result passes the canonical type-tag precondition of
`sklearn2pmml`. -/
theorem make_pmml_pipeline_spec (obj : Obj) :
    (∀ t, obj = Obj.est t →
       make_pmml_pipeline obj =
         Except.ok (Obj.pmmlPipe (Steps.cons "estimator" (Obj.est t) [] Steps.nil))) ∧
    (∀ ss, obj = Obj.pipe ss →
       make_pmml_pipeline obj = Except.ok (Obj.pmmlPipe (_filter_steps ss))) ∧
    (isPipelineInst obj = false → isBaseEstimator obj = false →
       make_pmml_pipeline obj = Except.error InvalidInputError.invalidInput) ∧
    (∀ r, make_pmml_pipeline obj = Except.ok r → isPMMLPipeline r = true) := by
  refine ⟨?_, ?_, ?_, ?_⟩
  · rintro t rfl; rfl
  · rintro ss rfl; rfl
  · intro hpipe hest
    cases obj <;> simp_all [make_pmml_pipeline, _get_steps, isBaseEstimator, isPipelineInst]
  · intro r hr
    cases obj <;> simp_all [make_pmml_pipeline, _get_steps, isBaseEstimator, isPMMLPipeline] <;>
      (cases hr' : r <;> simp_all [isPMMLPipeline])

/-- Witness for `make_pmml_pipeline_spec`: a bare estimator becomes the
one-step `"estimator"` pipeline that passes the type-tag check, and a plain
string fails with InvalidInputError. -/
theorem make_pmml_pipeline_spec_witness :
    make_pmml_pipeline (Obj.est "clf") =
      Except.ok (Obj.pmmlPipe (Steps.cons "estimator" (Obj.est "clf") [] Steps.nil)) ∧
    make_pmml_pipeline (Obj.strLit "drop") =
      Except.error InvalidInputError.invalidInput ∧
    isPMMLPipeline (Obj.pmmlPipe (Steps.cons "estimator" (Obj.est "clf") [] Steps.nil)) = true :=
  ⟨(make_pmml_pipeline_spec (Obj.est "clf")).1 "clf" rfl,
   (make_pmml_pipeline_spec (Obj.strLit "drop")).2.2.1 rfl rfl,
   (make_pmml_pipeline_spec (Obj.est "clf")).2.2.2 _
     ((make_pmml_pipeline_spec (Obj.est "clf")).1 "clf" rfl)⟩

/-- C5: `_filter` is idempotent — normalizing an already-normalized
component performs no further Selector-to-Proxy replacements, and an
existing `SelectorProxy` is left unchanged as a leaf, never re-wrapped. -/
theorem filter_idempotent (x : Obj) :
    _filter (_filter x) = _filter x ∧
    (∀ s m, _filter (Obj.proxy s m) = Obj.proxy s m) :=
  ⟨filterIdemObj x, fun _ _ => rfl⟩

/-- C6: on a `ColumnTransformer` whose `remainder` is a pass-through/drop
string sentinel, `_filter` leaves the remainder value unchanged (the
recursive call hits the unrecognized-leaf fallthrough and returns the
string as is), and the rewrite is total — no exception is raised. -/
theorem filter_remainder_sentinel (ts : Steps) (s : String) (f : OptSteps) :
    _filter (Obj.colt ts (Obj.strLit s) f) =
      Obj.colt (_filter_steps ts) (Obj.strLit s) (filterOptSteps f) ∧
    _filter (Obj.strLit s) = Obj.strLit s :=
  ⟨rfl, rfl⟩

/-- C7: manifest parsing — the example line list yields exactly the keys
`"a.B"` and `"c.D"` with their values; a line whose rstripped form starts
with `#` is skipped as a comment; and a non-comment line containing no `=`
raises the parse error (the `ValueError` of the two-element unpacking). -/
theorem parse_properties_spec :
    (_parse_properties ["# comment", "a.B = 1", "c.D = 2"] =
      Except.ok [("a.B", "1"), ("c.D", "2")]) ∧
    (∀ l ls, (rstripL l.data).head? = Option.some '#' →
       _parse_properties (l :: ls) = _parse_properties ls) ∧
    (∀ l ls, (rstripL l.data).head? ≠ Option.some '#' → '=' ∉ l.data →
       _parse_properties (l :: ls) = Except.error ManifestParseError.malformedLine) := by
  refine ⟨by decide, ?_, ?_⟩
  · intro l ls hh
    simp [_parse_properties, parsePropertiesGo, _parse_propline, hh]
  · intro l ls hh hmem
    have hsplit : splitOnChar '=' (rstripL l.data) = [rstripL l.data] :=
      splitOnChar_of_not_mem '=' (rstripL l.data) (fun hm => hmem (mem_of_mem_rstripL hm))
    simp [_parse_properties, parsePropertiesGo, _parse_propline, hh, hsplit]

/-- Witness for `parse_properties_spec`: a concrete comment line is
skipped, and a concrete separator-free line fails. -/
theorem parse_properties_spec_witness :
    _parse_properties ["#x", "a = b"] = _parse_properties ["a = b"] ∧
    _parse_properties ["nokey"] = Except.error ManifestParseError.malformedLine :=
  ⟨parse_properties_spec.2.1 "#x" ["a = b"] (by decide),
   parse_properties_spec.2.2 "nokey" [] (by decide) (by decide)⟩

set_option maxRecDepth 8192 in
/-- C8: `sklearn2pmml` raises the `TypeError` naming
`make_pmml_pipeline` whenever its pipeline argument fails the canonical
type-tag check, and it does so before any conversion work — no dump file is
created and no converter process is launched; for a canonical
`PMMLPipeline` the error is never raised; and the message does name the
normalization entry point. -/
theorem sklearn2pmml_typecheck (env : ConvEnv) (p : Obj) :
    (isPMMLPipeline p = false →
       (sklearn2pmml env p).1 = ConvOutcome.typeMismatch typeMismatchMsg ∧
       (sklearn2pmml env p).2.created = [] ∧
       (sklearn2pmml env p).2.launched = false) ∧
    (isPMMLPipeline p = true →
       ∀ m, (sklearn2pmml env p).1 ≠ ConvOutcome.typeMismatch m) ∧
    (∃ pre post, typeMismatchMsg = pre ++ "make_pmml_pipeline" ++ post) := by
  refine ⟨?_, ?_, ?_⟩
  · intro hp; simp [sklearn2pmml, hp]
  · intro hp m
    simp only [sklearn2pmml, hp]
    cases env.launchOk <;> cases hr : env.retcode <;> cases env.debug <;> simp
  · exact ⟨"The pipeline object is not an instance of PMMLPipeline. Use the \x27sklearn2pmml.",
      "(obj)\x27 utility function to translate a regular Scikit-Learn estimator or pipeline to a PMML pipeline",
      by decide⟩

/-- Witness for `sklearn2pmml_typecheck`: a bare estimator is rejected with
the `TypeError` (nothing created, nothing launched) and a canonical
pipeline is not. -/
theorem sklearn2pmml_typecheck_witness :
    ((sklearn2pmml ⟨false, false, false, true, 0⟩ (Obj.est "e")).1 =
       ConvOutcome.typeMismatch typeMismatchMsg ∧
     (sklearn2pmml ⟨false, false, false, true, 0⟩ (Obj.est "e")).2.created = [] ∧
     (sklearn2pmml ⟨false, false, false, true, 0⟩ (Obj.est "e")).2.launched = false) ∧
    (sklearn2pmml ⟨false, false, false, true, 0⟩ (Obj.pmmlPipe Steps.nil)).1 ≠
      ConvOutcome.typeMismatch typeMismatchMsg :=
  ⟨(sklearn2pmml_typecheck ⟨false, false, false, true, 0⟩ (Obj.est "e")).1 rfl,
   (sklearn2pmml_typecheck ⟨false, false, false, true, 0⟩ (Obj.pmmlPipe Steps.nil)).2.1 rfl
     typeMismatchMsg⟩

/-- C9: constructing a `SelectorProxy` never raises — for an unfit selector
(whether it signals `NotFittedError` or `ValueError`) the failure is
swallowed and the proxy is created with no stored mask, and for a fit
selector the boolean support mask is eagerly stored. -/
theorem selectorProxyNew_total (mask : Option (List Bool)) (err : SkError) :
    selectorProxyNew mask err = Except.ok (Obj.proxy (Obj.sel mask) mask) := by
  cases mask <;> cases err <;> rfl

/-- C10: on a `ColumnTransformer` carrying a post-fit `transformers_` list,
`_filter` also rewrites that fitted list with `_filter_steps`,
independently of the rewrite of the unfitted `transformers` list, and
`_filter_steps` replaces each Selector inside a step list by a
`SelectorProxy`. -/
theorem filter_fitted_transformers (ts : Steps) (r : Obj) (fs : Steps) :
    _filter (Obj.colt ts r (OptSteps.some fs)) =
      Obj.colt (_filter_steps ts) (_filter r) (OptSteps.some (_filter_steps fs)) ∧
    (∀ n m ex rest,
       _filter_steps (Steps.cons n (Obj.sel m) ex rest) =
         Steps.cons n (Obj.proxy (Obj.sel m) m) ex (_filter_steps rest)) :=
  ⟨rfl, fun _ _ _ _ => rfl⟩

end Sklearn2Pmml
